import Mathlib

/-!
Verification development for the kagent agent-registry reconciler.

The Go sources under `go/internal/controller` (AgentRegistry controller),
`go/internal/controller/registry` (card generation), `go/pkg/registry/health`
(endpoint health checker) and `go/pkg/registry/a2a` (A2A translator) are
shallowly embedded as pure Lean functions.  Impure inputs of the Go code are
made explicit parameters:

* the wall clock read by `metav1.Now()` is a `Nat` argument `now`;
* the network behaviour of a health probe is a function
  `probe : AgentEndpoint → ProbeOutcome`; a cancelled cluster context is the
  environment in which every probe reports a failure, which is exactly how the
  Go `http.Client.Do` surfaces cancellation to the caller;
* the cluster content seen through the client (agents, services, namespaces,
  existing cards) is carried in an explicit `Cluster` value, and the write
  performed by `Patch(..., client.Apply, ...)` is an upsert on the card list.

Go maps are association lists; `map[string]string` indexing with its zero
value for missing keys is `lookupD`.  Machine integers of the Go code
(`int32` counts and ports, `int64` generations) stay far below their bounds in
every reachable value here, and are modelled as `Nat`.

`encoding/json` marshalling of the card spec is reproduced byte for byte for
the struct shapes involved: fields in declaration order, `omitempty` fields
dropped at their zero value, map keys sorted, strings escaped the way Go's
encoder does (including the HTML escapes `<`, `>`, `&` and U+2028/U+2029), and
`crypto/sha256` is implemented in full (FIPS 180-4) over the UTF-8 bytes.
-/

/-! ## Small utilities -/

/-- First value bound to `k` in an association list (Go map lookup, `v, ok :=`
form). -/

def lookupA (m : List (String × String)) (k : String) : Option String :=
  match m with
  | [] => none
  | p :: t => if p.1 = k then some p.2 else lookupA t k

/-- Go map indexing `m[k]`: the zero value `""` when the key is absent. -/

def lookupD (m : List (String × String)) (k : String) : String :=
  (lookupA m k).getD ""

/-- Go map assignment `m[k] = v`: overwrite the existing binding or append. -/

def mapInsert (m : List (String × String)) (k v : String) : List (String × String) :=
  match m with
  | [] => [(k, v)]
  | p :: t => if p.1 = k then (k, v) :: t else p :: mapInsert t k v

/-- Byte-wise (= code-point-wise) strict order on strings, as Go's `<` on
`string` used by `encoding/json` to sort map keys. -/

def strLtB (a b : List Char) : Bool :=
  match a, b with
  | [], [] => false
  | [], _ :: _ => true
  | _ :: _, [] => false
  | x :: xs, y :: ys =>
    if x.toNat < y.toNat then true
    else if y.toNat < x.toNat then false
    else strLtB xs ys

/-- Insert one key/value pair into a key-sorted list (helper of `sortPairs`). -/

def insertPair (p : String × String) (l : List (String × String)) :
    List (String × String) :=
  match l with
  | [] => [p]
  | q :: t => if strLtB p.1.toList q.1.toList then p :: q :: t else q :: insertPair p t

/-- Sort an association list by key, as Go's `encoding/json` does before
writing a map. -/

def sortPairs (l : List (String × String)) : List (String × String) :=
  match l with
  | [] => []
  | p :: t => insertPair p (sortPairs t)

/-- `strings.HasPrefix s pre` over character lists (the byte-position-based
`String.startsWith` does not reduce in the kernel). -/

def startsWithL : List Char → List Char → Bool
  | _, [] => true
  | [], _ :: _ => false
  | a :: as, b :: bs => a == b && startsWithL as bs

/-- `strings.HasPrefix`. -/

def startsWithStr (s pre : String) : Bool := startsWithL s.toList pre.toList

/-- `strings.TrimPrefix` after a positive prefix test: drop that many
characters. -/

def dropStr (s : String) (n : Nat) : String := ⟨s.toList.drop n⟩

/-- `strings.TrimSpace`: strip leading and trailing whitespace. -/

def trimStr (s : String) : String :=
  ⟨((s.toList.dropWhile Char.isWhitespace).reverse.dropWhile Char.isWhitespace).reverse⟩

/-- `strings.Split` on the comma separator, over characters. -/

def splitComma : List Char → List (List Char)
  | [] => [[]]
  | c :: t =>
    match splitComma t, c == ',' with
    | r, true => [] :: r
    | [], false => [[c]]
    | h :: r, false => (c :: h) :: r

/-- `strings.Split(s, ",")`. -/

def splitOnComma (s : String) : List String := (splitComma s.toList).map (fun l => ⟨l⟩)

/-! ## SHA-256 (`crypto/sha256`, FIPS 180-4) over byte lists -/

/-- Truncation to a 32-bit word. -/

def w32 (x : Nat) : Nat := x % 4294967296

/-- Right rotation of a 32-bit word by `n`. -/

def rotr32 (n x : Nat) : Nat := w32 ((x >>> n) ||| (x <<< (32 - n)))

/-- Bitwise complement of a 32-bit word. -/

def not32 (x : Nat) : Nat := 4294967295 ^^^ x

/-- SHA-256 `Ch(x,y,z)`. -/

def chF (x y z : Nat) : Nat := (x &&& y) ^^^ (not32 x &&& z)

/-- SHA-256 `Maj(x,y,z)`. -/

def majF (x y z : Nat) : Nat := (x &&& y) ^^^ (x &&& z) ^^^ (y &&& z)

/-- SHA-256 `Σ₀`. -/

def bigS0 (x : Nat) : Nat := rotr32 2 x ^^^ rotr32 13 x ^^^ rotr32 22 x

/-- SHA-256 `Σ₁`. -/

def bigS1 (x : Nat) : Nat := rotr32 6 x ^^^ rotr32 11 x ^^^ rotr32 25 x

/-- SHA-256 `σ₀`. -/

def smallS0 (x : Nat) : Nat := rotr32 7 x ^^^ rotr32 18 x ^^^ (x >>> 3)

/-- SHA-256 `σ₁`. -/

def smallS1 (x : Nat) : Nat := rotr32 17 x ^^^ rotr32 19 x ^^^ (x >>> 10)

/-- The 64 SHA-256 round constants. -/
def shaK : List Nat :=
  [1116352408, 1899447441, 3049323471, 3921009573, 961987163,
   1508970993, 2453635748, 2870763221, 3624381080, 310598401,
   607225278, 1426881987, 1925078388, 2162078206, 2614888103,
   3248222580, 3835390401, 4022224774, 264347078, 604807628,
   770255983, 1249150122, 1555081692, 1996064986, 2554220882,
   2821834349, 2952996808, 3210313671, 3336571891, 3584528711,
   113926993, 338241895, 666307205, 773529912, 1294757372,
   1396182291, 1695183700, 1986661051, 2177026350, 2456956037,
   2730485921, 2820302411, 3259730800, 3345764771, 3516065817,
   3600352804, 4094571909, 275423344, 430227734, 506948616,
   659060556, 883997877, 958139571, 1322822218, 1537002063,
   1747873779, 1955562222, 2024104815, 2227730452, 2361852424,
   2428436474, 2756734187, 3204031479, 3329325298]

/-- The SHA-256 initial hash value. -/
def shaH0 : List Nat :=
  [1779033703, 3144134277, 1013904242, 2773480762,
   1359893119, 2600822924, 528734635, 1541459225]

/-- Big-endian 32-bit words from bytes (whole 4-byte groups). -/

def bytesToWords : List Nat → List Nat
  | a :: b :: c :: d :: t => (a * 16777216 + b * 65536 + c * 256 + d) :: bytesToWords t
  | _ => []

/-- Extend a 16-word message block to the 64-word schedule, one word per step. -/

def extendSchedule : Nat → List Nat → List Nat
  | 0, ws => ws
  | n + 1, ws =>
    let len := ws.length
    let word := w32 (smallS1 (ws.getD (len - 2) 0) + ws.getD (len - 7) 0 +
      smallS0 (ws.getD (len - 15) 0) + ws.getD (len - 16) 0)
    extendSchedule n (ws ++ [word])

/-- One SHA-256 round on the eight working variables. -/

def shaRound (st : List Nat) (kw : Nat × Nat) : List Nat :=
  match st with
  | [a, b, c, d, e, f, g, h] =>
    let t1 := h + bigS1 e + chF e f g + kw.1 + kw.2
    let t2 := bigS0 a + majF a b c
    [w32 (t1 + t2), a, b, c, w32 (d + t1), e, f, g]
  | other => other

/-- Compression of one 64-byte block into the running hash. -/

def shaCompress (h : List Nat) (block : List Nat) : List Nat :=
  let ws := extendSchedule 48 (bytesToWords block)
  let st := (shaK.zip ws).foldl shaRound h
  (h.zip st).map (fun p => w32 (p.1 + p.2))

/-- Big-endian 8-byte encoding of a length-in-bits. -/

def be64 (n : Nat) : List Nat :=
  [(n / 72057594037927936) % 256, (n / 281474976710656) % 256,
   (n / 1099511627776) % 256, (n / 4294967296) % 256,
   (n / 16777216) % 256, (n / 65536) % 256, (n / 256) % 256, n % 256]

/-- SHA-256 padding: `0x80`, zeros to 56 mod 64, then the bit length. -/

def sha256Pad (msg : List Nat) : List Nat :=
  let len := msg.length
  let zeros := (119 - len % 64) % 64
  msg ++ 0x80 :: List.replicate zeros 0 ++ be64 (len * 8)

/-- Fold the compression function over the padded message, 64 bytes at a time;
the fuel is the message length, which bounds the number of blocks. -/

def sha256Blocks : Nat → List Nat → List Nat → List Nat
  | 0, h, _ => h
  | fuel + 1, h, msg =>
    match msg with
    | [] => h
    | _ :: _ => sha256Blocks fuel (shaCompress h (msg.take 64)) (msg.drop 64)

/-- The SHA-256 digest (32 bytes) of a byte list, as `sha256.Sum256`. -/

def sha256Bytes (msg : List Nat) : List Nat :=
  let padded := sha256Pad msg
  let hs := sha256Blocks padded.length shaH0 padded
  (hs.map (fun w => [(w / 16777216) % 256, (w / 65536) % 256, (w / 256) % 256, w % 256])).flatten

/-- A SHA-256 collision: two distinct byte strings with the same digest.  None
is known; the property enters theorems only as an explicit disjunct, never as
an assumption. -/

def shaCollision : Prop := ∃ a b : List Nat, a ≠ b ∧ sha256Bytes a = sha256Bytes b

/-- Lower-case hex digit of a value below 16. -/

def hexDigit (n : Nat) : Char :=
  if n < 10 then Char.ofNat (48 + n) else Char.ofNat (87 + n)

/-- Lower-case hex of a byte list, as Go's `fmt.Sprintf("%x", hash)`. -/

def bytesToHex (bs : List Nat) : String :=
  ⟨(bs.map (fun b => [hexDigit (b / 16), hexDigit (b % 16)])).flatten⟩

/-- UTF-8 bytes of one scalar value, as Go writes strings. -/

def utf8Char (c : Char) : List Nat :=
  let n := c.toNat
  if n < 128 then [n]
  else if n < 2048 then [192 + n / 64, 128 + n % 64]
  else if n < 65536 then [224 + n / 4096, 128 + (n / 64) % 64, 128 + n % 64]
  else [240 + n / 262144, 128 + (n / 4096) % 64, 128 + (n / 64) % 64, 128 + n % 64]

/-- UTF-8 bytes of a character list. -/

def utf8Chars (l : List Char) : List Nat := (l.map utf8Char).flatten

/-! ## JSON string escaping (`encoding/json` with default HTML escaping) -/

/-- Escape of one character, as Go's `encodeState.string` writes it: quote and
backslash get a backslash, the three whitespace controls get their short
forms, other controls and the HTML-sensitive `<`, `>`, `&` become `\u00XX`,
and U+2028/U+2029 become ` `/` `; everything else is copied. -/

def escChar (c : Char) : List Char :=
  if c = '"' then ['\\', '"']
  else if c = '\\' then ['\\', '\\']
  else if c = '\n' then ['\\', 'n']
  else if c = '\r' then ['\\', 'r']
  else if c = '\t' then ['\\', 't']
  else if c.toNat < 32 ∨ c = '<' ∨ c = '>' ∨ c = '&' then
    ['\\', 'u', '0', '0', hexDigit (c.toNat / 16), hexDigit (c.toNat % 16)]
  else if c.toNat = 8232 ∨ c.toNat = 8233 then
    ['\\', 'u', '2', '0', '2', hexDigit (c.toNat % 16)]
  else [c]

/-- Escape of a character list. -/

def escList : List Char → List Char
  | [] => []
  | c :: t => escChar c ++ escList t

/-- Value of a lower-case hex digit (garbage elsewhere; decoding helper). -/

def hexVal (c : Char) : Nat :=
  if c.toNat ≤ 57 then c.toNat - 48 else c.toNat - 87

/-- Decoder of `escChar`'s output, used only to prove the escape injective. -/

def unescList : List Char → List Char
  | [] => []
  | '\\' :: '"' :: r => '"' :: unescList r
  | '\\' :: '\\' :: r => '\\' :: unescList r
  | '\\' :: 'n' :: r => '\n' :: unescList r
  | '\\' :: 'r' :: r => '\r' :: unescList r
  | '\\' :: 't' :: r => '\t' :: unescList r
  | '\\' :: 'u' :: h1 :: h2 :: h3 :: h4 :: r =>
    Char.ofNat (4096 * hexVal h1 + 256 * hexVal h2 + 16 * hexVal h3 + hexVal h4) :: unescList r
  | '\\' :: r => unescList r
  | c :: t => c :: unescList t

/-! ## Data model (`api/v1alpha1`, `api/v1alpha2`, the used corev1/metav1 parts)

Field names follow the Go sources; `Namespace` appears as `ns` and the
condition field `Type` as `typ` because both words are reserved here.  Only
the fields the embedded functions read or write are carried. -/

/-- `metav1.OwnerReference` as set by the controller (`ptr.To(true)` becomes
`controller := true`). -/

structure OwnerReference where
  apiVersion : String := ""
  kind : String := ""
  name : String := ""
  uid : String := ""
  controller : Bool := false
deriving DecidableEq, Repr

/-- The used part of `metav1.ObjectMeta`. -/

structure ObjectMeta where
  name : String := ""
  ns : String := ""
  labels : List (String × String) := []
  annotations : List (String × String) := []
  generation : Nat := 0
  resourceVersion : String := ""
  uid : String := ""
  ownerReferences : List OwnerReference := []
deriving DecidableEq, Repr

/-- The used part of `corev1.ObjectReference` (JSON field order of the Go
declaration: kind, namespace, name, uid, apiVersion; every field omitempty). -/

structure ObjectReference where
  kind : String := ""
  ns : String := ""
  name : String := ""
  uid : String := ""
  apiVersion : String := ""
deriving DecidableEq, Repr

/-- `v1alpha1.AgentEndpoint`. -/

structure AgentEndpoint where
  url : String := ""
  protocol : String := ""
  port : Nat := 0
deriving DecidableEq, Repr

/-- `v1alpha1.AgentCardSpec`. -/

structure AgentCardSpec where
  name : String := ""
  version : String := ""
  sourceRef : ObjectReference := {}
  endpoints : List AgentEndpoint := []
  capabilities : List String := []
  a2aVersion : String := ""
  metadata : List (String × String) := []
  publicCard : String := ""
deriving DecidableEq, Repr

/-- `metav1.Condition` (`Type` as `typ`). -/

structure K8sCondition where
  typ : String := ""
  status : String := ""
  observedGeneration : Nat := 0
  lastTransitionTime : Nat := 0
  reason : String := ""
  message : String := ""
deriving DecidableEq, Repr

/-- `v1alpha1.AgentCardStatus` (`PublishedRef` is never written by the
embedded code and stays at its zero value). -/

structure AgentCardStatus where
  hash : String := ""
  lastSeen : Option Nat := none
  endpointHealthy : Option Bool := none
  conditions : List K8sCondition := []
  publishedRef : Option ObjectReference := none
  observedGeneration : Nat := 0
deriving DecidableEq, Repr

/-- `v1alpha1.AgentCard` (TypeMeta inline, then ObjectMeta, spec, status). -/

structure AgentCard where
  apiVersion : String := ""
  kind : String := ""
  meta : ObjectMeta := {}
  spec : AgentCardSpec := {}
  status : AgentCardStatus := {}
deriving DecidableEq, Repr

/-- `v1alpha2.AgentSkill`: the embedded code reads only the skill name. -/

structure AgentSkill where
  name : String := ""
deriving DecidableEq, Repr

/-- `v1alpha2.A2AConfig`. -/

structure A2AConfig where
  skills : List AgentSkill := []
deriving DecidableEq, Repr

/-- `v1alpha2.TypedLocalReference`: only the name is read. -/

structure TypedLocalReference where
  name : String := ""
deriving DecidableEq, Repr

/-- `v1alpha2.McpServerTool` (its embedded `TypedLocalReference` flattened to
the one read field). -/

structure McpServerTool where
  name : String := ""
deriving DecidableEq, Repr

/-- `v1alpha2.Tool`. -/

structure Tool where
  mcpServer : Option McpServerTool := none
  agent : Option TypedLocalReference := none
deriving DecidableEq, Repr

/-- `v1alpha2.DeclarativeAgentSpec`, the used fields. -/

structure DeclarativeAgentSpec where
  modelConfig : String := ""
  tools : List Tool := []
  a2aConfig : Option A2AConfig := none
deriving DecidableEq, Repr

/-- `v1alpha2.AgentSpec`, the used fields. -/

structure AgentSpec where
  description : String := ""
  declarative : Option DeclarativeAgentSpec := none
deriving DecidableEq, Repr

/-- `v1alpha2.Agent`. -/

structure Agent where
  apiVersion : String := ""
  kind : String := ""
  meta : ObjectMeta := {}
  spec : AgentSpec := {}
deriving DecidableEq, Repr

/-- `corev1.ServicePort`, the used fields. -/

structure ServicePort where
  name : String := ""
  port : Nat := 0
  protocol : String := "TCP"
deriving DecidableEq, Repr

/-- The used part of `corev1.Service`. -/

structure Service where
  name : String := ""
  ns : String := ""
  ports : List ServicePort := []
deriving DecidableEq, Repr

/-- `metav1.LabelSelector`, match-labels form (the embedded registries use no
match expressions). -/

structure LabelSelector where
  matchLabels : List (String × String) := []
deriving DecidableEq, Repr

/-- `v1alpha1.DiscoveryConfig` (sync interval in seconds when present). -/

structure DiscoveryConfig where
  enableAutoDiscovery : Bool := false
  namespaceSelector : Option LabelSelector := none
  syncInterval : Option Nat := none
deriving DecidableEq, Repr

/-- `v1alpha1.AgentRegistrySpec`, the used fields. -/

structure AgentRegistrySpec where
  discovery : DiscoveryConfig := {}
  a2aVersion : String := ""
deriving DecidableEq, Repr

/-- `v1alpha1.AgentRegistryStatus`. -/

structure AgentRegistryStatus where
  registeredAgents : Nat := 0
  phase : String := ""
  lastSync : Option Nat := none
  conditions : List K8sCondition := []
  observedGeneration : Nat := 0
deriving DecidableEq, Repr

/-- `v1alpha1.AgentRegistry`. -/

structure AgentRegistry where
  apiVersion : String := ""
  kind : String := ""
  meta : ObjectMeta := {}
  spec : AgentRegistrySpec := {}
  status : AgentRegistryStatus := {}
deriving DecidableEq, Repr

/-- A namespace as the controller sees it: name and labels. -/

structure NamespaceRec where
  name : String := ""
  labels : List (String × String) := []
deriving DecidableEq, Repr

/-- The cluster content visible through the client during one pass. -/

structure Cluster where
  namespaces : List NamespaceRec := []
  agents : List Agent := []
  services : List Service := []
  cards : List AgentCard := []
deriving DecidableEq, Repr

/-! ## `encoding/json` marshalling of `AgentCardSpec` -/

/-- The character `{`. -/

def obrace : Char := Char.ofNat 123

/-- The character `}`. -/

def cbrace : Char := Char.ofNat 125

/-- A JSON string literal: quoted, escaped. -/

def qstr (s : String) : List Char := '"' :: escList s.toList ++ ['"']

/-- One `"key":value` member. -/

def jsonField (k : String) (v : List Char) : List Char := qstr k ++ ':' :: v

/-- Comma-joined members. -/

def joinComma : List (List Char) → List Char
  | [] => []
  | [f] => f
  | f :: g :: t => f ++ ',' :: joinComma (g :: t)

/-- Decimal digits of a number. -/

def natChars (n : Nat) : List Char := (Nat.repr n).toList

/-- A JSON object from its members. -/

def jsonObj (fs : List (List Char)) : List Char := obrace :: joinComma fs ++ [cbrace]

/-- A JSON array from its elements. -/

def jsonArr (es : List (List Char)) : List Char := '[' :: joinComma es ++ [']']

/-- An `omitempty` string member: dropped at the zero value. -/

def optStrField (k v : String) : List (List Char) :=
  if v = "" then [] else [jsonField k (qstr v)]

/-- Marshalled `corev1.ObjectReference` (all members omitempty, Go field
order). -/

def objectReferenceJSON (r : ObjectReference) : List Char :=
  jsonObj (optStrField "kind" r.kind ++ optStrField "namespace" r.ns ++
    optStrField "name" r.name ++ optStrField "uid" r.uid ++
    optStrField "apiVersion" r.apiVersion)

/-- Marshalled `AgentEndpoint` (`url`, then omitempty `protocol`, `port`). -/

def endpointJSON (e : AgentEndpoint) : List Char :=
  jsonObj ([jsonField "url" (qstr e.url)] ++ optStrField "protocol" e.protocol ++
    (if e.port = 0 then [] else [jsonField "port" (natChars e.port)]))

/-- Marshalled string map: keys sorted byte-wise, as Go marshals a map. -/

def metadataJSON (m : List (String × String)) : List Char :=
  jsonObj ((sortPairs m).map (fun p => jsonField p.1 (qstr p.2)))

/-- The members of the marshalled `AgentCardSpec` before `publicCard`:
declaration order, omitempty as tagged in `agentcard_types.go` (`name` and
`sourceRef` always present, the rest dropped when empty). -/

def specJSONFront (s : AgentCardSpec) : List (List Char) :=
  [jsonField "name" (qstr s.name)]
    ++ optStrField "version" s.version
    ++ [jsonField "sourceRef" (objectReferenceJSON s.sourceRef)]
    ++ (if s.endpoints.isEmpty then [] else
        [jsonField "endpoints" (jsonArr (s.endpoints.map endpointJSON))])
    ++ (if s.capabilities.isEmpty then [] else
        [jsonField "capabilities" (jsonArr (s.capabilities.map qstr))])
    ++ optStrField "a2aVersion" s.a2aVersion
    ++ (if s.metadata.isEmpty then [] else
        [jsonField "metadata" (metadataJSON s.metadata)])

/-- Marshalled `AgentCardSpec`: the members before `publicCard`, then the
omitempty `publicCard` member. -/

def specJSON (s : AgentCardSpec) : List Char :=
  jsonObj (specJSONFront s ++ optStrField "publicCard" s.publicCard)

/-- `CardGenerator.calculateHash`: hex SHA-256 of the marshalled spec. -/

def calculateHash (spec : AgentCardSpec) : String :=
  bytesToHex (sha256Bytes (utf8Chars (specJSON spec)))

/-! ## A2A translator (`pkg/registry/a2a/translator.go`) -/

/-- `server.AgentCapabilities` of the A2A library (three optional booleans). -/

structure A2ACapabilities where
  streaming : Option Bool := none
  pushNotifications : Option Bool := none
  stateTransitionHistory : Option Bool := none
deriving DecidableEq, Repr

/-- `server.AgentSkill`, the fields the translator writes. -/

structure A2ASkill where
  id : String := ""
  name : String := ""
  description : Option String := none
  tags : List String := []
deriving DecidableEq, Repr

/-- `server.AgentProvider`. -/

structure A2AProvider where
  organization : String := ""
  url : Option String := none
deriving DecidableEq, Repr

/-- `server.AgentCard` of the A2A library, the fields the translator writes. -/

structure A2ACard where
  name : String := ""
  description : String := ""
  version : String := ""
  url : String := ""
  capabilities : A2ACapabilities := {}
  defaultInputModes : List String := []
  defaultOutputModes : List String := []
  skills : List A2ASkill := []
  provider : Option A2AProvider := none
  iconURL : Option String := none
  documentationURL : Option String := none
  protocolVersion : Option String := none
deriving DecidableEq, Repr

/-- `Translator.extractDescription`. -/

def a2aExtractDescription (card : AgentCard) : String :=
  match lookupA card.spec.metadata "description" with
  | some desc => if desc ≠ "" then desc else "Agent " ++ card.spec.name
  | none => "Agent " ++ card.spec.name

/-- `Translator.extractVersion`. -/

def a2aExtractVersion (card : AgentCard) : String :=
  if card.spec.version ≠ "" then card.spec.version else "1.0.0"

/-- `Translator.extractPrimaryURL`. -/

def a2aExtractPrimaryURL (card : AgentCard) : String :=
  match card.spec.endpoints with
  | e :: _ => e.url
  | [] => ""

/-- `Translator.extractProvider`. -/

def a2aExtractProvider (card : AgentCard) : Option A2AProvider :=
  match lookupA card.spec.metadata "provider.organization" with
  | none => none
  | some org => some { organization := org, url := lookupA card.spec.metadata "provider.url" }

/-- `Translator.extractIconURL`. -/

def a2aExtractIconURL (card : AgentCard) : String :=
  lookupD card.spec.metadata "iconUrl"

/-- `Translator.extractDocURL`. -/

def a2aExtractDocURL (card : AgentCard) : String :=
  lookupD card.spec.metadata "documentationUrl"

/-- `Translator.extractSkills`: a default general-purpose skill when the card
has no capabilities, otherwise one skill per capability with ids `skill-i`. -/

def a2aExtractSkills (card : AgentCard) : List A2ASkill :=
  if card.spec.capabilities.isEmpty then
    [{ id := "default", name := "General Purpose",
       description := some "General purpose agent", tags := [] }]
  else
    card.spec.capabilities.enum.map (fun p =>
      { id := "skill-" ++ Nat.repr p.1, name := p.2, tags := [] })

/-- `Translator.ToA2ACard`; the nil-card pointer of Go is the `none` case. -/

def ToA2ACard : Option AgentCard → Except String A2ACard
  | none => .error "AgentCard cannot be nil"
  | some card =>
    .ok { name := card.spec.name
          description := a2aExtractDescription card
          version := a2aExtractVersion card
          url := a2aExtractPrimaryURL card
          capabilities := { streaming := some true, pushNotifications := some false,
                            stateTransitionHistory := some false }
          defaultInputModes := ["text"]
          defaultOutputModes := ["text"]
          skills := a2aExtractSkills card
          provider := a2aExtractProvider card
          iconURL := if a2aExtractIconURL card ≠ "" then some (a2aExtractIconURL card) else none
          documentationURL := if a2aExtractDocURL card ≠ "" then some (a2aExtractDocURL card) else none
          protocolVersion := if card.spec.a2aVersion ≠ "" then some card.spec.a2aVersion else none }

/-- A JSON boolean. -/

def boolChars (b : Bool) : List Char := if b then "true".toList else "false".toList

/-- An optional-pointer boolean member: dropped when nil. -/

def optBoolField (k : String) (v : Option Bool) : List (List Char) :=
  match v with
  | none => []
  | some b => [jsonField k (boolChars b)]

/-- An optional-pointer string member: dropped when nil. -/

def optPtrStrField (k : String) (v : Option String) : List (List Char) :=
  match v with
  | none => []
  | some s => [jsonField k (qstr s)]

/-- Modelled from the spec: the serialized external-schema form of the A2A
library's `server.AgentCard` (the library's marshalling is outside this
repository; §4.4 and §6.5 of the spec fix it only as a deterministic JSON
document over the card fields, which this function is). -/

def a2aCardJSON (c : A2ACard) : List Char :=
  jsonObj ([jsonField "name" (qstr c.name),
    jsonField "description" (qstr c.description),
    jsonField "version" (qstr c.version),
    jsonField "url" (qstr c.url),
    jsonField "capabilities" (jsonObj (optBoolField "streaming" c.capabilities.streaming
      ++ optBoolField "pushNotifications" c.capabilities.pushNotifications
      ++ optBoolField "stateTransitionHistory" c.capabilities.stateTransitionHistory)),
    jsonField "defaultInputModes" (jsonArr (c.defaultInputModes.map qstr)),
    jsonField "defaultOutputModes" (jsonArr (c.defaultOutputModes.map qstr)),
    jsonField "skills" (jsonArr (c.skills.map (fun sk =>
      jsonObj ([jsonField "id" (qstr sk.id), jsonField "name" (qstr sk.name)]
        ++ optPtrStrField "description" sk.description
        ++ [jsonField "tags" (jsonArr (sk.tags.map qstr))]))))]
    ++ (match c.provider with
        | none => []
        | some p => [jsonField "provider" (jsonObj ([jsonField "organization" (qstr p.organization)]
            ++ optPtrStrField "url" p.url))])
    ++ optPtrStrField "iconUrl" c.iconURL
    ++ optPtrStrField "documentationUrl" c.documentationURL
    ++ optPtrStrField "protocolVersion" c.protocolVersion)

/-- `Translator.ToJSON`: translate, then marshal (`json.Marshal` cannot fail
on this struct shape, so the only error source is the nil card). -/

def ToJSON (card : Option AgentCard) : Except String String :=
  match ToA2ACard card with
  | .error e => .error e
  | .ok a2aCard => .ok ⟨a2aCardJSON a2aCard⟩

/-- The translator handed to the generator by `reconcileAgentCard`
(`a2a.NewTranslator()`), applied to the always-non-nil card. -/

def a2aTranslate (card : AgentCard) : Except String String := ToJSON (some card)

/-! ## Card generation (`internal/controller/registry/cardgen.go`) -/

/-- Modelled from the spec: the annotation key `register-to-registry`
(constant `AnnotationRegisterToRegistry` of the registry package, whose
constants file is not among the sources; key strings follow §3.4 of the spec
and the repository's planning documents). -/

def annRegisterToRegistry : String := "kagent.io/register-to-registry"

/-- Modelled from the spec: the annotation key `discovery-disabled`
(`AnnotationDiscoveryDisabled`). -/

def annDiscoveryDisabled : String := "kagent.io/discovery-disabled"

/-- Modelled from the spec: the annotation key `a2a-endpoint`
(`AnnotationA2AEndpoint`). -/

def annA2AEndpoint : String := "kagent.io/a2a-endpoint"

/-- Modelled from the spec: the annotation key `capabilities`
(`AnnotationCapabilities`). -/

def annCapabilities : String := "kagent.io/capabilities"

/-- Modelled from the spec: the `card-` annotation key lead-in
(`AnnotationCardMetadataPrefix`), whose trailing part becomes a metadata
key. -/

def annCardMeta : String := "kagent.io/card-"

/-- Modelled from the spec: `registry.PhaseNotStarted`. -/

def PhaseNotStarted : String := "NotStarted"

/-- Modelled from the spec: `registry.PhaseDiscovering`. -/

def PhaseDiscovering : String := "Discovering"

/-- Modelled from the spec: `registry.PhaseReady`. -/

def PhaseReady : String := "Ready"

/-- Modelled from the spec: `registry.PhaseError`. -/

def PhaseError : String := "Error"

/-- `v1alpha1.AgentCardConditionTypeReady`. -/

def AgentCardConditionTypeReady : String := "Ready"

/-- `v1alpha1.AgentRegistryConditionTypeReady`. -/

def AgentRegistryConditionTypeReady : String := "Ready"

/-- `v1alpha1.AgentRegistryConditionTypeDiscovering`. -/

def AgentRegistryConditionTypeDiscovering : String := "Discovering"

/-- `v1alpha1.AgentRegistryConditionTypeError`. -/

def AgentRegistryConditionTypeError : String := "Error"

/-- `CardGenerator.extractVersion`: label `version`, then label
`app.kubernetes.io/version`, then the resource version. -/

def extractVersion (agent : Agent) : String :=
  match lookupA agent.meta.labels "version" with
  | some version => version
  | none =>
    match lookupA agent.meta.labels "app.kubernetes.io/version" with
    | some version => version
    | none => agent.meta.resourceVersion

/-- `CardGenerator.buildSourceRef`. -/

def buildSourceRef (agent : Agent) : ObjectReference :=
  { apiVersion := agent.apiVersion, kind := agent.kind, name := agent.meta.name,
    ns := agent.meta.ns, uid := agent.meta.uid }

/-- Whether `agent.Spec.Declarative != nil && agent.Spec.Declarative.A2AConfig != nil`. -/

def hasA2AConfig (agent : Agent) : Bool :=
  match agent.spec.declarative with
  | some decl => decl.a2aConfig.isSome
  | none => false

/-- `strings.ToLower` for the ASCII protocol names involved (`String.map`
does not reduce in the kernel, so the character list is mapped directly). -/

def toLowerStr (s : String) : String := ⟨s.toList.map Char.toLower⟩

/-- `CardGenerator.findServiceForAgent`: the client `Get` of the service with
the agent's name in the agent's namespace, over the visible service list. -/

def findServiceForAgent (agent : Agent) (services : List Service) : Option Service :=
  services.find? (fun s => s.name == agent.meta.name && s.ns == agent.meta.ns)

/-- `CardGenerator.extractEndpoints`: annotation override, then the synthetic
in-cluster A2A endpoint, then one endpoint per port of the same-named service,
else none. -/

def extractEndpoints (agent : Agent) (services : List Service) : List AgentEndpoint :=
  match lookupA agent.meta.annotations annA2AEndpoint with
  | some customEndpoint => [{ url := customEndpoint, protocol := "http" }]
  | none =>
    if hasA2AConfig agent then
      [{ url := "http://kagent-controller.kagent.svc.cluster.local:8083/api/a2a/" ++
          agent.meta.ns ++ "/" ++ agent.meta.name,
         protocol := "http", port := 8083 }]
    else
      match findServiceForAgent agent services with
      | some service =>
        service.ports.map (fun port =>
          { url := "http://" ++ service.name ++ "." ++ service.ns ++
              ".svc.cluster.local:" ++ Nat.repr port.port,
            protocol := toLowerStr port.protocol, port := port.port })
      | none => []

/-- `CardGenerator.extractCapabilities`: the CSV annotation (fields trimmed),
else the non-empty declared skill names, else none. -/

def extractCapabilities (agent : Agent) : List String :=
  match lookupA agent.meta.annotations annCapabilities with
  | some capStr => (splitOnComma capStr).map (fun c => trimStr c)
  | none =>
    match agent.spec.declarative with
    | some decl =>
      match decl.a2aConfig with
      | some cfg =>
        if cfg.skills.length > 0 then
          cfg.skills.filterMap (fun skill => if skill.name ≠ "" then some skill.name else none)
        else []
      | none => []
    | none => []

/-- The tool name contributed by one `Tool` entry (`McpServer` first, then
`Agent`, skipping empty names), as in `extractMetadata`'s loop. -/

def toolName (tool : Tool) : Option String :=
  match tool.mcpServer with
  | some srv =>
    if srv.name ≠ "" then some srv.name
    else
      match tool.agent with
      | some a => if a.name ≠ "" then some a.name else none
      | none => none
  | none =>
    match tool.agent with
    | some a => if a.name ≠ "" then some a.name else none
    | none => none

/-- `CardGenerator.extractMetadata`: description, model config, the CSV of
tool names, then every `card-`-keyed annotation. -/

def extractMetadata (agent : Agent) : List (String × String) :=
  let m0 : List (String × String) := []
  let m1 := if agent.spec.description ≠ "" then
    mapInsert m0 "description" agent.spec.description else m0
  let m2 :=
    match agent.spec.declarative with
    | some decl =>
      let ma := if decl.modelConfig ≠ "" then mapInsert m1 "modelConfig" decl.modelConfig else m1
      if decl.tools.length > 0 then
        let toolNames := decl.tools.filterMap toolName
        if toolNames.length > 0 then
          mapInsert ma "tools" (String.intercalate "," toolNames)
        else ma
      else ma
    | none => m1
  agent.meta.annotations.foldl (fun m p =>
    if startsWithStr p.1 annCardMeta then
      mapInsert m (dropStr p.1 annCardMeta.length) p.2
    else m) m2

/-- `CardGenerator.GenerateCard`: build the spec, let the translator (when
present) embed the public card, swallow its failure, then hash the spec and
stamp the status.  The clock read `metav1.Now()` is the argument `now`; the
generator's nullable translator field is the `Option` argument. -/

def GenerateCard (translator : Option (AgentCard → Except String String))
    (agentRegistry : AgentRegistry) (agent : Agent) (services : List Service)
    (now : Nat) : Except String AgentCard :=
  let card : AgentCard :=
    { apiVersion := "kagent.dev/v1alpha1", kind := "AgentCard",
      meta := { name := agent.meta.name, ns := agent.meta.ns },
      spec := { name := agent.meta.name, version := extractVersion agent,
                sourceRef := buildSourceRef agent,
                endpoints := extractEndpoints agent services,
                capabilities := extractCapabilities agent,
                a2aVersion := agentRegistry.spec.a2aVersion,
                metadata := extractMetadata agent, publicCard := "" } }
  let card1 :=
    match translator with
    | some tr =>
      match tr card with
      | .ok publicCard => { card with spec := { card.spec with publicCard := publicCard } }
      | .error _ => card
    | none => card
  .ok { card1 with status :=
    { hash := calculateHash card1.spec, lastSeen := some now,
      endpointHealthy := none, publishedRef := none,
      conditions := [{ typ := AgentCardConditionTypeReady, status := "True",
                       observedGeneration := agent.meta.generation,
                       lastTransitionTime := now, reason := "Generated",
                       message := "AgentCard generated successfully" }],
      observedGeneration := agent.meta.generation }}

/-- The card of an `ok` result (`GenerateCard` has no other outcome). -/

def okCardD (r : Except String AgentCard) : AgentCard :=
  match r with
  | .ok card => card
  | .error _ => {}

/-! ## Health checker (`pkg/registry/health/checker.go`) -/

/-- What one HTTP HEAD probe of an endpoint yields: a reply with a status
code, or a failure (connection error, per-probe timeout, or cancellation of
the threaded cluster context — `http.Client.Do` reports all of these as a
non-nil error).  A cancelled cluster-wide context is the environment in which
every endpoint probes to `failure`. -/

inductive ProbeOutcome where
  | failure
  | reply (code : Nat)
deriving DecidableEq, Repr

/-- `Checker.checkEndpoint`: error on failure, else whether the status code
lies in `[200, 500)`. -/

def checkEndpoint (probe : AgentEndpoint → ProbeOutcome) (endpoint : AgentEndpoint) :
    Except String Bool :=
  match probe endpoint with
  | .failure => .error "failed to check endpoint"
  | .reply code => .ok (decide (200 ≤ code) && decide (code < 500))

/-- The loop of `CheckEndpoints`: skip erroring endpoints, stop at the first
healthy one, and report every endpoint unhealthy at the end. -/

def checkLoop (probe : AgentEndpoint → ProbeOutcome) :
    List AgentEndpoint → Bool × Option String
  | [] => (false, some "all endpoints unhealthy")
  | e :: rest =>
    match checkEndpoint probe e with
    | .error _ => checkLoop probe rest
    | .ok true => (true, none)
    | .ok false => checkLoop probe rest

/-- `Checker.CheckEndpoints`: error on an empty list, else the loop. -/

def CheckEndpoints (probe : AgentEndpoint → ProbeOutcome)
    (endpoints : List AgentEndpoint) : Bool × Option String :=
  if endpoints.length = 0 then (false, some "no endpoints to check")
  else checkLoop probe endpoints

/-! ## Controller (`internal/controller/agentregistry_controller.go`) -/

/-- Modelled from the spec: the fixed field-ownership identifier
(`registry.FieldManagerAgentRegistry`, §6.3) under which every card apply is
issued. -/

def FieldManagerAgentRegistry : String := "agentregistry-controller"

/-- `filterAgentsByAnnotation` (name shortened): keep agents annotated
`register-to-registry = "true"` and not `discovery-disabled = "true"`. -/

def filterAgentsByAnn (agents : List Agent) : List Agent :=
  agents.filter (fun agent =>
    lookupD agent.meta.annotations annRegisterToRegistry == "true" &&
    lookupD agent.meta.annotations annDiscoveryDisabled != "true")

/-- `getMatchingNamespaces`: names of the namespaces whose labels satisfy the
match-labels selector (the `LabelSelectorAsSelector` semantics for a selector
without match expressions). -/

def getMatchingNamespaces (selector : LabelSelector) (namespaces : List NamespaceRec) :
    List String :=
  (namespaces.filter (fun nsRec =>
    selector.matchLabels.all (fun p => lookupA nsRec.labels p.1 == some p.2))).map
    (fun nsRec => nsRec.name)

/-- `discoverAgents`: agents of the selector-matched namespaces (in namespace
order), or of the registry's own namespace, filtered by annotation. -/

def discoverAgents (agentRegistry : AgentRegistry) (cluster : Cluster) : List Agent :=
  match agentRegistry.spec.discovery.namespaceSelector with
  | some selector =>
    let nss := getMatchingNamespaces selector cluster.namespaces
    filterAgentsByAnn ((nss.map (fun nsName =>
      cluster.agents.filter (fun a => a.meta.ns == nsName))).flatten)
  | none =>
    filterAgentsByAnn (cluster.agents.filter
      (fun a => a.meta.ns == agentRegistry.meta.ns))

/-- The card with the given namespace and name, through the client `Get`. -/

def lookupCard (cards : List AgentCard) (ns nm : String) : Option AgentCard :=
  cards.find? (fun c => c.meta.ns == ns && c.meta.name == nm)

/-- Whether a card with the given namespace and name exists. -/

def cardExistsB (cards : List AgentCard) (ns nm : String) : Bool :=
  cards.any (fun c => c.meta.ns == ns && c.meta.name == nm)

/-- The server-side apply of a card: replace the card with the same namespace
and name, or create it. -/

def upsertCard : List AgentCard → AgentCard → List AgentCard
  | [], card => [card]
  | c :: t, card =>
    if c.meta.ns == card.meta.ns && c.meta.name == card.meta.name then card :: t
    else c :: upsertCard t card

/-- The controller owner reference `SetOwnerReferences` installs. -/

def ownerRef (agentRegistry : AgentRegistry) : OwnerReference :=
  { apiVersion := agentRegistry.apiVersion, kind := agentRegistry.kind,
    name := agentRegistry.meta.name, uid := agentRegistry.meta.uid,
    controller := true }

/-- `reconcileAgentCard`: generate the card, skip when an existing card
carries the same hash, otherwise probe (when a checker is configured and
endpoints exist), set the owner reference and apply.  The result is the card
list after the pass step and the number of apply operations issued (0 or 1).
The conditional Go assignment to `card.Status.EndpointHealthy` before the
apply is the conditional value of that one field here. -/

def reconcileAgentCard (healthCheckerPresent : Bool)
    (probe : AgentEndpoint → ProbeOutcome) (agentRegistry : AgentRegistry)
    (agent : Agent) (services : List Service) (cards : List AgentCard)
    (now : Nat) : List AgentCard × Nat :=
  match GenerateCard (some a2aTranslate) agentRegistry agent services now with
  | .error _ => (cards, 0)
  | .ok card =>
    let existing := lookupCard cards card.meta.ns card.meta.name
    let skip := match existing with
      | some ex => ex.status.hash == card.status.hash
      | none => false
    if skip then (cards, 0)
    else
      let applied : AgentCard :=
        { card with
          status := { card.status with
            endpointHealthy :=
              if healthCheckerPresent && !card.spec.endpoints.isEmpty then
                some (CheckEndpoints probe card.spec.endpoints).1
              else card.status.endpointHealthy }
          meta := { card.meta with ownerReferences := [ownerRef agentRegistry] } }
      (upsertCard cards applied, 1)

/-- `updateStatus`: the status value written by `Status().Update` — phase,
count, observed generation, `lastSync := now`, and the phase-dependent
condition upserted by type into the existing condition list. -/

def updateStatus (agentRegistry : AgentRegistry) (phase message : String)
    (registeredAgents : Nat) (now : Nat) : AgentRegistryStatus :=
  let condition0 : K8sCondition :=
    { typ := AgentRegistryConditionTypeReady, status := "True",
      observedGeneration := agentRegistry.meta.generation,
      lastTransitionTime := now, reason := "ReconciliationSucceeded",
      message := message }
  let condition :=
    if phase = PhaseError then
      { condition0 with
        typ := AgentRegistryConditionTypeError
        reason := "ReconciliationFailed" }
    else if phase = PhaseDiscovering then
      { condition0 with
        typ := AgentRegistryConditionTypeDiscovering
        reason := "DiscoveringAgents" }
    else condition0
  let upsertCondition : List K8sCondition → List K8sCondition := fun conds =>
    if conds.any (fun c => c.typ == condition.typ) then
      conds.map (fun c => if c.typ == condition.typ then condition else c)
    else conds ++ [condition]
  { phase := phase, registeredAgents := registeredAgents,
    observedGeneration := agentRegistry.meta.generation,
    lastSync := some now,
    conditions := upsertCondition agentRegistry.status.conditions }

/-- The per-agent loop of `reconcileAgentRegistry`: thread the card list
through `reconcileAgentCard` and count the processed agents (in this
error-free embedding every agent reconciles, as every cluster write
succeeds). -/

def reconcileAll (healthCheckerPresent : Bool)
    (probe : AgentEndpoint → ProbeOutcome) (agentRegistry : AgentRegistry)
    (services : List Service) (now : Nat) :
    List Agent → List AgentCard × Nat → List AgentCard × Nat
  | [], acc => acc
  | agent :: rest, acc =>
    let r := reconcileAgentCard healthCheckerPresent probe agentRegistry agent
      services acc.1 now
    reconcileAll healthCheckerPresent probe agentRegistry services now rest
      (r.1, acc.2 + 1)

/-- The observable outcome of one reconciliation pass: the card list after
the pass and the status values written, in order. -/

structure PassOutcome where
  cards : List AgentCard := []
  statusWrites : List AgentRegistryStatus := []
  registered : Nat := 0
deriving DecidableEq, Repr

/-- `reconcileAgentRegistry`, one pass: when auto-discovery is off, a single
`NotStarted` status write and no card changes; otherwise the `Discovering`
pre-mark, the per-agent loop over the discovered agents, and the final
`Ready` write with the registered count. -/

def reconcileAgentRegistry (healthCheckerPresent : Bool)
    (probe : AgentEndpoint → ProbeOutcome) (agentRegistry : AgentRegistry)
    (cluster : Cluster) (now : Nat) : PassOutcome :=
  if !agentRegistry.spec.discovery.enableAutoDiscovery then
    { cards := cluster.cards,
      statusWrites := [updateStatus agentRegistry PhaseNotStarted "Auto-discovery disabled" 0 now],
      registered := 0 }
  else
    let st1 := updateStatus agentRegistry PhaseDiscovering "Discovering agents" 0 now
    let reg1 := { agentRegistry with status := st1 }
    let agents := discoverAgents agentRegistry cluster
    let r := reconcileAll healthCheckerPresent probe agentRegistry
      cluster.services now agents (cluster.cards, 0)
    let st2 := updateStatus reg1 PhaseReady "Discovery complete" r.2 now
    { cards := r.1, statusWrites := [st1, st2], registered := r.2 }

/-! ## Concrete fixtures (the spec's scenario S1 family) -/

/-- Whether a generation result is `ok`. -/

def genOk (r : Except String AgentCard) : Bool :=
  match r with
  | .ok _ => true
  | .error _ => false

/-- Prefix test on character lists. -/

def isPre : List Char → List Char → Bool
  | [], _ => true
  | _ :: _, [] => false
  | a :: as, b :: bs => a == b && isPre as bs

/-- Whether `pat` occurs as a contiguous run of `s`. -/

def containsSub (pat : List Char) : List Char → Bool
  | [] => isPre pat []
  | c :: t => isPre pat (c :: t) || containsSub pat t

/-- The environment of a cancelled cluster context: every probe fails. -/

def probeFail : AgentEndpoint → ProbeOutcome := fun _ => .failure

/-- Registry `r1` in namespace `n`, auto-discovery on, protocol 0.3.0. -/

def regFix : AgentRegistry :=
  { apiVersion := "kagent.dev/v1alpha1", kind := "AgentRegistry",
    meta := { name := "r1", ns := "n", generation := 1, uid := "uid-r1" },
    spec := { discovery := { enableAutoDiscovery := true }, a2aVersion := "0.3.0" } }

/-- The same registry with auto-discovery off. -/

def regFixDisabled : AgentRegistry :=
  { regFix with spec := { discovery := { enableAutoDiscovery := false }, a2aVersion := "0.3.0" } }

/-- Agent `a1` in `n`, registered, description `hello`, nothing else. -/

def agFix1 : Agent :=
  { meta := { name := "a1", ns := "n",
              annotations := [(annRegisterToRegistry, "true")] },
    spec := { description := "hello" } }

/-- Agent `a1` with the registration flipped off by `discovery-disabled`. -/

def agFixDisabled : Agent :=
  { meta := { name := "a1", ns := "n",
              annotations := [(annRegisterToRegistry, "true"),
                              (annDiscoveryDisabled, "true")] },
    spec := { description := "hello" } }

/-- Agent `a1` with the `a2a-endpoint` annotation override. -/

def agFixEndpoint : Agent :=
  { meta := { name := "a1", ns := "n",
              annotations := [(annRegisterToRegistry, "true"),
                              (annA2AEndpoint, "https://x.example:9000")] } }

/-- Agent `a1` with a declarative A2A sub-config and one skill. -/

def agFixA2A : Agent :=
  { meta := { name := "a1", ns := "n",
              annotations := [(annRegisterToRegistry, "true")] },
    spec := { declarative := some { a2aConfig := some { skills := [{ name := "skill1" }] } } } }

/-- Service `a1` in `n` with the two ports of scenario S2. -/

def svcFix : Service :=
  { name := "a1", ns := "n",
    ports := [{ name := "http", port := 8080, protocol := "TCP" },
              { name := "grpc", port := 9090, protocol := "TCP" }] }

/-- The S1 card as generated at time 4. -/

def cardFix : AgentCard := okCardD (GenerateCard (some a2aTranslate) regFix agFix1 [] 4)

/-! ## Claims -/

/-- Whether a probe outcome is a definitive healthy reply: a status code in
`[200, 500)`. -/

def definitiveHealthy : ProbeOutcome → Bool
  | .failure => false
  | .reply code => decide (200 ≤ code) && decide (code < 500)

/-- The stale card of scenario S6: the card `n/a1` owned by `r1`, present in
the cluster from an earlier pass. -/

def cardStale : AgentCard :=
  { apiVersion := "kagent.dev/v1alpha1", kind := "AgentCard",
    meta := { name := "a1", ns := "n", ownerReferences := [ownerRef regFix] },
    spec := { name := "a1" }, status := { hash := "h" } }

/-- A collision of the composed digest: two distinct serialized documents
with the same hex SHA-256.  None is known; it appears below only as an
explicit disjunct. -/

def digestCollision : Prop :=
  ∃ a b : List Char, a ≠ b
    ∧ bytesToHex (sha256Bytes (utf8Chars a)) = bytesToHex (sha256Bytes (utf8Chars b))

theorem hexVal_hexDigit : ∀ n, n < 16 → hexVal (hexDigit n) = n := by decide

theorem unesc_escChar (c : Char) (r : List Char) :
    unescList (escChar c ++ r) = c :: unescList r := by
  by_cases h1 : c = '"'
  · simp [escChar, h1, unescList]
  by_cases h2 : c = '\\'
  · simp [escChar, h1, h2, unescList]
  by_cases h3 : c = '\n'
  · simp [escChar, h1, h2, h3, unescList]
  by_cases h4 : c = '\r'
  · simp [escChar, h1, h2, h3, h4, unescList]
  by_cases h5 : c = '\t'
  · simp [escChar, h1, h2, h3, h4, h5, unescList]
  by_cases h6 : c.toNat < 32 ∨ c = '<' ∨ c = '>' ∨ c = '&'
  · have hlt : c.toNat < 256 := by
      rcases h6 with h | h | h | h
      · omega
      all_goals (subst h; decide)
    have hv1 : hexVal (hexDigit (c.toNat / 16)) = c.toNat / 16 :=
      hexVal_hexDigit _ (by omega)
    have hv2 : hexVal (hexDigit (c.toNat % 16)) = c.toNat % 16 :=
      hexVal_hexDigit _ (by omega)
    have hc : Char.ofNat (4096 * hexVal '0' + 256 * hexVal '0' +
        16 * hexVal (hexDigit (c.toNat / 16)) + hexVal (hexDigit (c.toNat % 16))) = c := by
      rw [hv1, hv2]
      have : (4096 * hexVal '0' + 256 * hexVal '0' + 16 * (c.toNat / 16) + c.toNat % 16)
          = c.toNat := by
        have : hexVal '0' = 0 := by decide
        rw [this]; omega
      rw [this]
      exact Char.ofNat_toNat c
    simp [escChar, h1, h2, h3, h4, h5, h6, unescList, hc]
  by_cases h7 : c.toNat = 8232 ∨ c.toNat = 8233
  · have hc : Char.ofNat (4096 * hexVal '2' + 256 * hexVal '0' +
        16 * hexVal '2' + hexVal (hexDigit (c.toNat % 16))) = c := by
      have hv : hexVal (hexDigit (c.toNat % 16)) = c.toNat % 16 :=
        hexVal_hexDigit _ (by omega)
      rw [hv]
      have h2v : hexVal '2' = 2 := by decide
      have h0v : hexVal '0' = 0 := by decide
      rw [h2v, h0v]
      have : 4096 * 2 + 256 * 0 + 16 * 2 + c.toNat % 16 = c.toNat := by omega
      rw [this]
      exact Char.ofNat_toNat c
    simp [escChar, h1, h2, h3, h4, h5, h6, h7, unescList, hc]
  · simp [escChar, h1, h2, h3, h4, h5, h6, h7, unescList]

theorem unesc_escList (s : List Char) : unescList (escList s) = s := by
  induction s with
  | nil => rfl
  | cons c t ih => rw [escList, unesc_escChar, ih]

theorem escList_inj {a b : List Char} (h : escList a = escList b) : a = b := by
  rw [← unesc_escList a, h, unesc_escList]

/-- C10: `GenerateCard` never returns an error — for every input its result is
`ok` with a card — and a translator failure is silently swallowed: the card's
public-document field stays empty, so no caller observes the failure through
the error result. -/
theorem C10_generate_never_errors :
    (∀ translator agentRegistry agent services now,
      ∃ card, GenerateCard translator agentRegistry agent services now = .ok card)
    ∧ (∀ (f : AgentCard → Except String String) (msg : String)
        agentRegistry agent services now,
        (∀ c, f c = .error msg) →
        (okCardD (GenerateCard (some f) agentRegistry agent services now)).spec.publicCard
          = "") := by
  constructor
  · intro translator agentRegistry agent services now
    exact ⟨_, rfl⟩
  · intro f msg agentRegistry agent services now hf
    simp [GenerateCard, okCardD, hf]

/-- C10 witness: a translator that always fails still yields an `ok` card
whose public document is empty. -/
theorem C10_witness :
    (okCardD (GenerateCard (some (fun _ => Except.error "boom")) regFix agFix1 [] 3)).spec.publicCard
      = "" :=
  C10_generate_never_errors.2 (fun _ => Except.error "boom") "boom" regFix agFix1 [] 3
    (fun _ => rfl)

/-- C9, as stated, is false on the code: two invocations of the derivation at
different clock readings produce different cards, because `GenerateCard`
stamps `metav1.Now()` into `status.lastSeen` and the condition transition
time.  Here the same inputs at times 1 and 2. -/
theorem C9_counterexample :
    okCardD (GenerateCard (some a2aTranslate) regFix agFix1 [] 1)
      ≠ okCardD (GenerateCard (some a2aTranslate) regFix agFix1 [] 2) := by
  intro h
  have h2 : (some 1 : Option Nat) = some 2 :=
    congrArg (fun c => c.status.lastSeen) h
  simp at h2

/-- C9 amended: derivation is deterministic in everything except the status
timestamps — for a fixed input the spec and the content hash are identical
across invocations (they do not depend on the clock), and translation is a
function of the card spec alone, so a fixed spec always yields the same
public-document string. -/
theorem C9_amended :
    ∀ translator agentRegistry agent services t1 t2,
      (okCardD (GenerateCard translator agentRegistry agent services t1)).spec
        = (okCardD (GenerateCard translator agentRegistry agent services t2)).spec
      ∧ (okCardD (GenerateCard translator agentRegistry agent services t1)).status.hash
        = (okCardD (GenerateCard translator agentRegistry agent services t2)).status.hash
      ∧ ∀ c1 c2 : AgentCard, c1.spec = c2.spec → ToJSON (some c1) = ToJSON (some c2) := by
  intro translator agentRegistry agent services t1 t2
  refine ⟨rfl, rfl, ?_⟩
  intro c1 c2 h
  simp only [ToJSON, ToA2ACard, a2aExtractDescription, a2aExtractVersion,
    a2aExtractPrimaryURL, a2aExtractProvider, a2aExtractIconURL,
    a2aExtractDocURL, a2aExtractSkills, lookupD, h]

/-- C9 witness: two cards with the same spec but different statuses translate
to the same public document; the determinism conjuncts applied at S1 inputs
and times 1 and 2. -/
theorem C9_witness :
    ToJSON (some { spec := { name := "x" } })
      = ToJSON (some { spec := { name := "x" }, status := { hash := "h" } }) :=
  (C9_amended (some a2aTranslate) regFix agFix1 [] 1 2).2.2
    { spec := { name := "x" } } { spec := { name := "x" }, status := { hash := "h" } } rfl

/-- C2, as stated, is false on the code: `updateStatus` stamps `lastSync` on
every status write, so the `NotStarted` write of a disabled registry and the
`Discovering` pre-mark of an enabled pass both carry `lastSync`, although
neither is a terminal phase. -/
theorem C2_counterexample :
    ((reconcileAgentRegistry true probeFail regFixDisabled { agents := [agFix1] } 5).statusWrites.map
        (fun s => (s.phase, s.lastSync)) = [(PhaseNotStarted, some 5)])
      ∧ ((reconcileAgentRegistry true probeFail regFix {} 5).statusWrites.map
        (fun s => (s.phase, s.lastSync))
          = [(PhaseDiscovering, some 5), (PhaseReady, some 5)])
      ∧ PhaseNotStarted ≠ PhaseReady ∧ PhaseNotStarted ≠ PhaseError
      ∧ PhaseDiscovering ≠ PhaseReady ∧ PhaseDiscovering ≠ PhaseError := by
  refine ⟨rfl, rfl, ?_, ?_, ?_, ?_⟩ <;> decide

/-- C2 amended: every Registry status write performed by the reconciler sets
`lastSync` to the time of the write, whatever phase it records — terminal
phases and the `NotStarted`/`Discovering` writes alike. -/
theorem C2_amended :
    ∀ agentRegistry phase message registeredAgents now,
      (updateStatus agentRegistry phase message registeredAgents now).lastSync = some now :=
  fun _ _ _ _ _ => rfl

/-- C4: the first-match endpoint precedence of the derivation — the
`a2a-endpoint` annotation yields exactly one `{url, "http", 0}` endpoint
whatever services exist; otherwise a declared A2A sub-config yields the one
synthetic in-cluster endpoint; otherwise the same-named service in the
agent's namespace yields one endpoint per declared port, in port order, with
the lower-cased port protocol and the port number. -/
theorem C4_endpoint_precedence :
    ∀ (agent : Agent) (services : List Service),
      (∀ u, lookupA agent.meta.annotations annA2AEndpoint = some u →
        extractEndpoints agent services = [{ url := u, protocol := "http", port := 0 }])
      ∧ (lookupA agent.meta.annotations annA2AEndpoint = none →
         hasA2AConfig agent = true →
         extractEndpoints agent services =
           [{ url := "http://kagent-controller.kagent.svc.cluster.local:8083/api/a2a/" ++
               agent.meta.ns ++ "/" ++ agent.meta.name,
              protocol := "http", port := 8083 }])
      ∧ (∀ service, lookupA agent.meta.annotations annA2AEndpoint = none →
          hasA2AConfig agent = false →
          findServiceForAgent agent services = some service →
          extractEndpoints agent services = service.ports.map (fun port =>
            { url := "http://" ++ service.name ++ "." ++ service.ns ++
                ".svc.cluster.local:" ++ Nat.repr port.port,
              protocol := toLowerStr port.protocol, port := port.port })) := by
  intro agent services
  refine ⟨?_, ?_, ?_⟩
  · intro u h
    simp [extractEndpoints, h]
  · intro h1 h2
    simp [extractEndpoints, h1, h2]
  · intro service h1 h2 h3
    simp [extractEndpoints, h1, h2, h3]

/-- C4 witness: the three rules at the S2/S3 fixtures — the annotated agent
(service present but ignored), the A2A-configured agent, and the plain agent
with the two-port service. -/
theorem C4_witness :
    extractEndpoints agFixEndpoint [svcFix]
        = [{ url := "https://x.example:9000", protocol := "http", port := 0 }]
      ∧ extractEndpoints agFixA2A []
        = [{ url := "http://kagent-controller.kagent.svc.cluster.local:8083/api/a2a/n/a1",
             protocol := "http", port := 8083 }]
      ∧ extractEndpoints agFix1 [svcFix]
        = [{ url := "http://a1.n.svc.cluster.local:8080", protocol := "tcp", port := 8080 },
           { url := "http://a1.n.svc.cluster.local:9090", protocol := "tcp", port := 9090 }] :=
 by
  refine ⟨(C4_endpoint_precedence agFixEndpoint [svcFix]).1 "https://x.example:9000" rfl, ?_, ?_⟩
  · rw [(C4_endpoint_precedence agFixA2A []).2.1 rfl rfl]
    decide
  · rw [(C4_endpoint_precedence agFix1 [svcFix]).2.2 svcFix rfl rfl rfl]
    decide

set_option maxRecDepth 8000 in
/-- C5, as stated, is false on the code: when no endpoint rule matches, the
card is produced with no endpoints, but the `endpoints,omitempty` tag drops
the field from the serialized card spec entirely — the serialized S1 spec
contains no `"endpoints"` key at all, rather than a present empty list. -/
theorem C5_counterexample :
    genOk (GenerateCard (some a2aTranslate) regFix agFix1 [] 2) = true
      ∧ containsSub ("\"endpoints\"".toList)
          (specJSON (okCardD (GenerateCard (some a2aTranslate) regFix agFix1 [] 2)).spec)
        = false := by
  refine ⟨rfl, ?_⟩
  decide

/-- C5 amended: when no endpoint-resolution rule matches, a card is still
produced and its in-memory endpoints list is empty, but the field is dropped
from the serialized spec by `omitempty` (it is absent, not a present empty
list). -/
theorem C5_amended :
    ∀ agentRegistry agent services now,
      lookupA agent.meta.annotations annA2AEndpoint = none →
      hasA2AConfig agent = false →
      findServiceForAgent agent services = none →
      ∃ card, GenerateCard (some a2aTranslate) agentRegistry agent services now = .ok card
        ∧ card.spec.endpoints = [] := by
  intro agentRegistry agent services now h1 h2 h3
  refine ⟨_, rfl, ?_⟩
  show extractEndpoints agent services = []
  simp [extractEndpoints, h1, h2, h3]

/-- C5 witness: the amended statement at the S1 inputs (no annotation, no
A2A sub-config, no service). -/
theorem C5_witness :
    ∃ card, GenerateCard (some a2aTranslate) regFix agFix1 [] 7 = .ok card
      ∧ card.spec.endpoints = [] :=
  C5_amended regFix agFix1 [] 7 rfl rfl rfl

/-- C7: the deduplication fast path — when the existing card at the derived
card's key carries the same content hash as the freshly derived card, the
pass step issues no apply operation and leaves the card list unchanged. -/
theorem C7_dedup_fast_path :
    ∀ healthCheckerPresent probe agentRegistry agent services cards now ex,
      lookupCard cards agent.meta.ns agent.meta.name = some ex →
      ex.status.hash
        = (okCardD (GenerateCard (some a2aTranslate) agentRegistry agent services now)).status.hash →
      reconcileAgentCard healthCheckerPresent probe agentRegistry agent services cards now
        = (cards, 0) := by
  intro healthCheckerPresent probe agentRegistry agent services cards now ex h1 h2
  unfold reconcileAgentCard
  have hgen : GenerateCard (some a2aTranslate) agentRegistry agent services now
      = .ok (okCardD (GenerateCard (some a2aTranslate) agentRegistry agent services now)) := rfl
  rw [hgen]
  have hns : (okCardD (GenerateCard (some a2aTranslate) agentRegistry agent services now)).meta.ns
      = agent.meta.ns := rfl
  have hnm : (okCardD (GenerateCard (some a2aTranslate) agentRegistry agent services now)).meta.name
      = agent.meta.name := rfl
  simp only [hns, hnm, h1, h2, beq_self_eq_true, if_true]

/-- C7 witness: a second pass step over the very card generated at time 4
issues no apply. -/
theorem C7_witness :
    reconcileAgentCard true probeFail regFix agFix1 [] [cardFix] 4 = ([cardFix], 0) :=
  C7_dedup_fast_path true probeFail regFix agFix1 [] [cardFix] 4 cardFix rfl rfl

theorem checkLoop_true_iff (probe : AgentEndpoint → ProbeOutcome)
    (l : List AgentEndpoint) :
    (checkLoop probe l).1 = true ↔ ∃ e ∈ l, definitiveHealthy (probe e) = true := by
  induction l with
  | nil => simp [checkLoop]
  | cons e rest ih =>
    cases hp : probe e with
    | failure =>
      simp [checkLoop, checkEndpoint, hp, ih, definitiveHealthy]
    | reply code =>
      by_cases hc : 200 ≤ code ∧ code < 500
      · simp [checkLoop, checkEndpoint, hp, definitiveHealthy, hc.1, hc.2]
      · have hb : (decide (200 ≤ code) && decide (code < 500)) = false := by
          simp only [Bool.and_eq_false_iff, decide_eq_false_iff_not]
          omega
        simp [checkLoop, checkEndpoint, hp, hb, ih, definitiveHealthy]

theorem checkLoop_all_fail (probe : AgentEndpoint → ProbeOutcome)
    (l : List AgentEndpoint) (h : ∀ e ∈ l, definitiveHealthy (probe e) = false) :
    checkLoop probe l = (false, some "all endpoints unhealthy") := by
  induction l with
  | nil => rfl
  | cons e rest ih =>
    have he := h e (by simp)
    have hrest : ∀ x ∈ rest, definitiveHealthy (probe x) = false :=
      fun x hx => h x (by simp [hx])
    cases hp : probe e with
    | failure => simp [checkLoop, checkEndpoint, hp, ih hrest]
    | reply code =>
      have hb : (decide (200 ≤ code) && decide (code < 500)) = false := by
        have := he
        rw [definitiveHealthy.eq_def] at this
        simpa [hp] using this
      simp [checkLoop, checkEndpoint, hp, hb, ih hrest]

/-- C8: on a non-empty endpoint list the prober returns healthy exactly when
some endpoint replies with a status code in `[200, 500)` — endpoints that
error are skipped and later endpoints still tried — and when every endpoint
fails to produce such a reply within its timeout it returns unhealthy with
the `all endpoints unhealthy` error. -/
theorem C8_prober_semantics :
    ∀ probe endpoints, endpoints ≠ [] →
      ((CheckEndpoints probe endpoints).1 = true ↔
        ∃ e ∈ endpoints, ∃ code, probe e = .reply code ∧ 200 ≤ code ∧ code < 500)
      ∧ ((∀ e ∈ endpoints, definitiveHealthy (probe e) = false) →
          CheckEndpoints probe endpoints = (false, some "all endpoints unhealthy")) := by
  intro probe endpoints h
  have hlen : ¬ endpoints.length = 0 := by
    cases endpoints with
    | nil => simp at h
    | cons a t => simp
  constructor
  · rw [CheckEndpoints, if_neg hlen, checkLoop_true_iff]
    constructor
    · rintro ⟨e, he, hd⟩
      refine ⟨e, he, ?_⟩
      cases hp : probe e with
      | failure => rw [definitiveHealthy.eq_def, hp] at hd; simp at hd
      | reply code =>
        rw [definitiveHealthy.eq_def, hp] at hd
        simp only [Bool.and_eq_true, decide_eq_true_eq] at hd
        exact ⟨code, rfl, hd.1, hd.2⟩
    · rintro ⟨e, he, code, hp, hc1, hc2⟩
      refine ⟨e, he, ?_⟩
      rw [definitiveHealthy.eq_def, hp]
      simp [hc1, hc2]
  · intro hall
    rw [CheckEndpoints, if_neg hlen]
    exact checkLoop_all_fail probe endpoints hall

/-- C8 witness: a first endpoint that errors is skipped and the healthy
second endpoint is found; and a list whose replies are an error and a 502
is reported unhealthy. -/
theorem C8_witness :
    (CheckEndpoints (fun e => if e.url = "a" then .failure else .reply 204)
        [{ url := "a" }, { url := "b" }]).1 = true
      ∧ CheckEndpoints (fun e => if e.url = "a" then .failure else .reply 502)
          [{ url := "a" }, { url := "b" }]
        = (false, some "all endpoints unhealthy") := by
  constructor
  · exact (C8_prober_semantics (fun e => if e.url = "a" then .failure else .reply 204)
      [{ url := "a" }, { url := "b" }] (by decide)).1.mpr
      ⟨{ url := "b" }, by decide, 204, by decide, by decide, by decide⟩
  · exact (C8_prober_semantics (fun e => if e.url = "a" then .failure else .reply 502)
      [{ url := "a" }, { url := "b" }] (by decide)).2 (by decide)

/-- C3, as stated, is false on the code: with the cluster context cancelled
before any endpoint answers (every probe fails), `CheckEndpoints` returns
`(false, error)` and the pass step records `endpointHealthy = false` on the
applied card — unhealthy, not the unknown tri-state (`nil`). -/
theorem C3_counterexample :
    ((reconcileAgentCard true probeFail regFix agFixEndpoint [] [] 3).1.map
        (fun c => c.status.endpointHealthy)) = [some false]
      ∧ (some false : Option Bool) ≠ none := by
  exact ⟨rfl, by decide⟩

/-- C3 amended: cancellation of the cluster context before any endpoint
yields a definitive answer makes every probe error, which `CheckEndpoints`
reports as `(false, error)`, and the pass step then records the tri-state
value false (unhealthy) on the card it applies; the tri-state stays unknown
(`nil`) exactly when the prober is not invoked — no checker configured or no
endpoints. -/
theorem C3_amended :
    (∀ probe endpoints, endpoints ≠ [] → (∀ e ∈ endpoints, probe e = .failure) →
      CheckEndpoints probe endpoints = (false, some "all endpoints unhealthy"))
    ∧ (∀ probe agentRegistry agent services now,
        extractEndpoints agent services ≠ [] →
        ((reconcileAgentCard true probe agentRegistry agent services [] now).1.map
          (fun c => c.status.endpointHealthy))
          = [some (CheckEndpoints probe (extractEndpoints agent services)).1])
    ∧ (∀ healthCheckerPresent probe agentRegistry agent services now,
        (healthCheckerPresent = false ∨ extractEndpoints agent services = []) →
        ((reconcileAgentCard healthCheckerPresent probe agentRegistry agent services [] now).1.map
          (fun c => c.status.endpointHealthy))
          = [none]) := by
  refine ⟨?_, ?_, ?_⟩
  · intro probe endpoints h hall
    have hlen : ¬ endpoints.length = 0 := by
      cases endpoints with
      | nil => simp at h
      | cons a t => simp
    rw [CheckEndpoints, if_neg hlen]
    refine checkLoop_all_fail probe endpoints ?_
    intro e he
    rw [definitiveHealthy.eq_def, hall e he]
  · intro probe agentRegistry agent services now h
    have hne : (extractEndpoints agent services).isEmpty = false := by
      cases hx : extractEndpoints agent services with
      | nil => exact absurd hx h
      | cons a t => rfl
    unfold reconcileAgentCard
    have hgen : GenerateCard (some a2aTranslate) agentRegistry agent services now
        = .ok (okCardD (GenerateCard (some a2aTranslate) agentRegistry agent services now)) := rfl
    rw [hgen]
    have hsp : (okCardD (GenerateCard (some a2aTranslate) agentRegistry agent services now)).spec.endpoints
        = extractEndpoints agent services := rfl
    have hh : (okCardD (GenerateCard (some a2aTranslate) agentRegistry agent services now)).status.endpointHealthy
        = none := rfl
    simp only [lookupCard, List.find?_nil, Bool.true_and, hsp, hne, Bool.not_false,
      Bool.and_self, if_true, if_false, upsertCard, List.map]
  · intro healthCheckerPresent probe agentRegistry agent services now h
    unfold reconcileAgentCard
    have hgen : GenerateCard (some a2aTranslate) agentRegistry agent services now
        = .ok (okCardD (GenerateCard (some a2aTranslate) agentRegistry agent services now)) := rfl
    rw [hgen]
    have hsp : (okCardD (GenerateCard (some a2aTranslate) agentRegistry agent services now)).spec.endpoints
        = extractEndpoints agent services := rfl
    have hcond : (healthCheckerPresent &&
        !(okCardD (GenerateCard (some a2aTranslate) agentRegistry agent services now)).spec.endpoints.isEmpty)
        = false := by
      rcases h with h | h
      · simp [h]
      · simp [hsp, h]
    simp only [lookupCard, List.find?_nil, hcond, Bool.false_eq_true, if_false, upsertCard,
      List.map]
    rfl

/-- C3 witness: the three amended conjuncts at concrete inputs — a cancelled
two-endpoint probe reports unhealthy; the annotated agent's applied card
records `some false` under cancellation; the plain agent's applied card keeps
the unknown tri-state. -/
theorem C3_witness :
    CheckEndpoints probeFail [{ url := "a" }, { url := "b" }]
        = (false, some "all endpoints unhealthy")
      ∧ ((reconcileAgentCard true probeFail regFix agFixEndpoint [] [] 3).1.map
          (fun c => c.status.endpointHealthy))
        = [some (CheckEndpoints probeFail (extractEndpoints agFixEndpoint [])).1]
      ∧ ((reconcileAgentCard true probeFail regFix agFix1 [] [] 3).1.map
          (fun c => c.status.endpointHealthy)) = [none] :=
  ⟨C3_amended.1 probeFail [{ url := "a" }, { url := "b" }] (by decide) (fun _ _ => rfl),
   C3_amended.2.1 probeFail regFix agFixEndpoint [] 3 (by decide),
   C3_amended.2.2 true probeFail regFix agFix1 [] 3 (Or.inr (by decide))⟩

theorem lookupCard_some_exists {cards : List AgentCard} {ns nm : String}
    {ex : AgentCard} (h : lookupCard cards ns nm = some ex) :
    cardExistsB cards ns nm = true := by
  unfold lookupCard at h
  unfold cardExistsB
  have hm := List.mem_of_find?_eq_some h
  have hp := List.find?_some h
  exact List.any_of_mem hm hp

theorem cardExistsB_upsert_self (cards : List AgentCard) (c : AgentCard) :
    cardExistsB (upsertCard cards c) c.meta.ns c.meta.name = true := by
  induction cards with
  | nil => simp [upsertCard, cardExistsB]
  | cons x t ih =>
    rw [upsertCard.eq_def]
    by_cases hx : (x.meta.ns == c.meta.ns && x.meta.name == c.meta.name) = true
    · simp [hx, cardExistsB]
    · rw [Bool.not_eq_true] at hx
      simp only [hx, Bool.false_eq_true, if_false]
      simp only [cardExistsB, List.any_cons, Bool.or_eq_true] at ih ⊢
      exact Or.inr ih

theorem cardExistsB_upsert_mono {cards : List AgentCard} {ns nm : String}
    (c : AgentCard) (h : cardExistsB cards ns nm = true) :
    cardExistsB (upsertCard cards c) ns nm = true := by
  induction cards with
  | nil => simp [cardExistsB] at h
  | cons x t ih =>
    simp only [cardExistsB, List.any_cons, Bool.or_eq_true] at h
    rw [upsertCard.eq_def]
    by_cases hx : (x.meta.ns == c.meta.ns && x.meta.name == c.meta.name) = true
    · simp only [hx, if_true]
      simp only [Bool.and_eq_true, beq_iff_eq] at hx
      rcases h with hxm | ht
      · simp only [Bool.and_eq_true, beq_iff_eq] at hxm
        simp only [cardExistsB, List.any_cons, Bool.or_eq_true, Bool.and_eq_true, beq_iff_eq]
        exact Or.inl ⟨hx.1 ▸ hxm.1, hx.2 ▸ hxm.2⟩
      · simp only [cardExistsB, List.any_cons, Bool.or_eq_true]
        exact Or.inr ht
    · rw [Bool.not_eq_true] at hx
      simp only [hx, Bool.false_eq_true, if_false]
      simp only [cardExistsB, List.any_cons, Bool.or_eq_true] at ih ⊢
      rcases h with hxm | ht
      · exact Or.inl hxm
      · exact Or.inr (ih ht)

theorem reconcileAgentCard_cases (healthCheckerPresent : Bool)
    (probe : AgentEndpoint → ProbeOutcome) (agentRegistry : AgentRegistry)
    (agent : Agent) (services : List Service) (cards : List AgentCard) (now : Nat) :
    ((reconcileAgentCard healthCheckerPresent probe agentRegistry agent services cards now).1 = cards
      ∧ cardExistsB cards agent.meta.ns agent.meta.name = true)
    ∨ ∃ applied : AgentCard, applied.meta.ns = agent.meta.ns
        ∧ applied.meta.name = agent.meta.name
        ∧ (reconcileAgentCard healthCheckerPresent probe agentRegistry agent services cards now).1
            = upsertCard cards applied := by
  unfold reconcileAgentCard
  have hgen : GenerateCard (some a2aTranslate) agentRegistry agent services now
      = .ok (okCardD (GenerateCard (some a2aTranslate) agentRegistry agent services now)) := rfl
  rw [hgen]
  have hns : (okCardD (GenerateCard (some a2aTranslate) agentRegistry agent services now)).meta.ns
      = agent.meta.ns := rfl
  have hnm : (okCardD (GenerateCard (some a2aTranslate) agentRegistry agent services now)).meta.name
      = agent.meta.name := rfl
  simp only [hns, hnm]
  split
  · rename_i hskip
    refine Or.inl ⟨rfl, ?_⟩
    revert hskip
    cases hl : lookupCard cards agent.meta.ns agent.meta.name with
    | some ex => intro hskip; exact lookupCard_some_exists hl
    | none => intro hskip; simp at hskip
  · exact Or.inr ⟨_, rfl, rfl, rfl⟩

theorem reconcileAgentCard_exists_self (healthCheckerPresent : Bool)
    (probe : AgentEndpoint → ProbeOutcome) (agentRegistry : AgentRegistry)
    (agent : Agent) (services : List Service) (cards : List AgentCard) (now : Nat) :
    cardExistsB
      (reconcileAgentCard healthCheckerPresent probe agentRegistry agent services cards now).1
      agent.meta.ns agent.meta.name = true := by
  rcases reconcileAgentCard_cases healthCheckerPresent probe agentRegistry agent services cards now
    with ⟨heq, hex⟩ | ⟨applied, hns, hnm, heq⟩
  · rw [heq]; exact hex
  · rw [heq, ← hns, ← hnm]
    exact cardExistsB_upsert_self cards applied

theorem reconcileAgentCard_mono (healthCheckerPresent : Bool)
    (probe : AgentEndpoint → ProbeOutcome) (agentRegistry : AgentRegistry)
    (agent : Agent) (services : List Service) (cards : List AgentCard) (now : Nat)
    {ns nm : String} (h : cardExistsB cards ns nm = true) :
    cardExistsB
      (reconcileAgentCard healthCheckerPresent probe agentRegistry agent services cards now).1
      ns nm = true := by
  rcases reconcileAgentCard_cases healthCheckerPresent probe agentRegistry agent services cards now
    with ⟨heq, _⟩ | ⟨applied, _, _, heq⟩
  · rw [heq]; exact h
  · rw [heq]; exact cardExistsB_upsert_mono applied h

theorem reconcileAll_exists (healthCheckerPresent : Bool)
    (probe : AgentEndpoint → ProbeOutcome) (agentRegistry : AgentRegistry)
    (services : List Service) (now : Nat) :
    ∀ (agents : List Agent) (acc : List AgentCard × Nat),
      (∀ ns nm, cardExistsB acc.1 ns nm = true →
        cardExistsB
          (reconcileAll healthCheckerPresent probe agentRegistry services now agents acc).1
          ns nm = true)
      ∧ (∀ a ∈ agents,
        cardExistsB
          (reconcileAll healthCheckerPresent probe agentRegistry services now agents acc).1
          a.meta.ns a.meta.name = true) := by
  intro agents
  induction agents with
  | nil =>
    intro acc
    exact ⟨fun ns nm h => h, fun a ha => absurd ha (List.not_mem_nil a)⟩
  | cons x rest ih =>
    intro acc
    constructor
    · intro ns nm h
      rw [reconcileAll]
      exact (ih _).1 ns nm
        (reconcileAgentCard_mono healthCheckerPresent probe agentRegistry x services acc.1 now h)
    · intro a ha
      rw [reconcileAll]
      rcases List.mem_cons.mp ha with rfl | ha'
      · exact (ih _).1 a.meta.ns a.meta.name
          (reconcileAgentCard_exists_self healthCheckerPresent probe agentRegistry a services acc.1 now)
      · exact (ih _).2 a ha'

/-- C1 amended: after a successful pass of an enabled Registry, a Card named
`A.name` exists in `A.namespace` for every selected Agent `A`; but a pass
never deletes a Card — every Card present before the pass is still present
after it — so the Card of an Agent that flipped to unselected is NOT removed
by the next pass (it is only removed with the Registry by owner cascade). -/
theorem C1_amended :
    ∀ healthCheckerPresent probe agentRegistry cluster now,
      agentRegistry.spec.discovery.enableAutoDiscovery = true →
      (∀ a ∈ discoverAgents agentRegistry cluster,
        cardExistsB
          (reconcileAgentRegistry healthCheckerPresent probe agentRegistry cluster now).cards
          a.meta.ns a.meta.name = true)
      ∧ (∀ ns nm, cardExistsB cluster.cards ns nm = true →
          cardExistsB
            (reconcileAgentRegistry healthCheckerPresent probe agentRegistry cluster now).cards
            ns nm = true) := by
  intro healthCheckerPresent probe agentRegistry cluster now hen
  unfold reconcileAgentRegistry
  simp only [hen, Bool.not_true, Bool.false_eq_true, if_false]
  constructor
  · intro a ha
    exact (reconcileAll_exists healthCheckerPresent probe agentRegistry cluster.services now
      (discoverAgents agentRegistry cluster) (cluster.cards, 0)).2 a ha
  · intro ns nm h
    exact (reconcileAll_exists healthCheckerPresent probe agentRegistry cluster.services now
      (discoverAgents agentRegistry cluster) (cluster.cards, 0)).1 ns nm h

/-- C1, as stated, is false on the code: after `a1` flips to unselected via
`discovery-disabled = "true"`, the next pass leaves its existing owned Card
untouched — the controller has no deletion step, so the "only if" direction
of the claim fails and the Card is not removed. -/
theorem C1_counterexample :
    discoverAgents regFix { agents := [agFixDisabled], cards := [cardStale] } = []
      ∧ (reconcileAgentRegistry true probeFail regFix
          { agents := [agFixDisabled], cards := [cardStale] } 6).cards = [cardStale]
      ∧ cardExistsB [cardStale] "n" "a1" = true
      ∧ cardStale.meta.ownerReferences = [ownerRef regFix] := by
  exact ⟨rfl, rfl, rfl, rfl⟩

/-- C1 witness: the amended statement at the S1 inputs — the selected agent's
card exists after the pass, and a pre-existing card at another key is still
present. -/
theorem C1_witness :
    cardExistsB
      (reconcileAgentRegistry true probeFail regFix
        { agents := [agFix1], cards := [cardStale] } 6).cards
      agFix1.meta.ns agFix1.meta.name = true
    ∧ cardExistsB
      (reconcileAgentRegistry true probeFail regFix
        { agents := [agFix1], cards := [cardStale] } 6).cards "n" "a1" = true :=
  ⟨(C1_amended true probeFail regFix { agents := [agFix1], cards := [cardStale] } 6 rfl).1
      agFix1 (by decide),
   (C1_amended true probeFail regFix { agents := [agFix1], cards := [cardStale] } 6 rfl).2
      "n" "a1" rfl⟩

theorem joinComma_append_single (fs : List (List Char)) (x : List Char) (h : fs ≠ []) :
    joinComma (fs ++ [x]) = joinComma fs ++ ',' :: x := by
  induction fs with
  | nil => exact absurd rfl h
  | cons f t ih =>
    cases t with
    | nil => simp [joinComma]
    | cons g r =>
      have ih' := ih (by simp)
      calc joinComma ((f :: g :: r) ++ [x])
          = f ++ ',' :: joinComma ((g :: r) ++ [x]) := rfl
        _ = f ++ ',' :: (joinComma (g :: r) ++ ',' :: x) := by rw [ih']
        _ = (f ++ ',' :: joinComma (g :: r)) ++ ',' :: x := by
            simp [List.append_assoc]
        _ = joinComma (f :: g :: r) ++ ',' :: x := rfl

theorem specJSONFront_ne_nil (s : AgentCardSpec) : specJSONFront s ≠ [] := by
  intro h
  unfold specJSONFront at h
  simp only [List.singleton_append, List.cons_append] at h
  exact absurd h (List.cons_ne_nil _ _)

theorem specJSON_publicCard_inj (s : AgentCardSpec) {pc1 pc2 : String} (hne : pc1 ≠ pc2) :
    specJSON { s with publicCard := pc1 } ≠ specJSON { s with publicCard := pc2 } := by
  intro heq
  apply hne
  have e1 : specJSON { s with publicCard := pc1 }
      = obrace :: (joinComma (specJSONFront s ++ optStrField "publicCard" pc1) ++ [cbrace]) := rfl
  have e2 : specJSON { s with publicCard := pc2 }
      = obrace :: (joinComma (specJSONFront s ++ optStrField "publicCard" pc2) ++ [cbrace]) := rfl
  rw [e1, e2] at heq
  simp only [List.cons.injEq, true_and] at heq
  have h3 := List.append_cancel_right heq
  by_cases h1 : pc1 = ""
  · by_cases h2 : pc2 = ""
    · exact h1.trans h2.symm
    · exfalso
      rw [optStrField, if_pos h1, optStrField, if_neg h2, List.append_nil,
        joinComma_append_single _ _ (specJSONFront_ne_nil s)] at h3
      have hl := congrArg List.length h3
      simp at hl
  · by_cases h2 : pc2 = ""
    · exfalso
      rw [optStrField, if_neg h1, optStrField, if_pos h2, List.append_nil,
        joinComma_append_single _ _ (specJSONFront_ne_nil s)] at h3
      have hl := congrArg List.length h3
      simp at hl
    · rw [optStrField, if_neg h1, optStrField, if_neg h2,
        joinComma_append_single _ _ (specJSONFront_ne_nil s),
        joinComma_append_single _ _ (specJSONFront_ne_nil s)] at h3
      have h4 := List.append_cancel_left h3
      simp only [List.cons.injEq, true_and] at h4
      unfold jsonField at h4
      have h5 := List.append_cancel_left h4
      simp only [List.cons.injEq, true_and] at h5
      unfold qstr at h5
      injection h5 with h5a h5b
      have h6 := List.append_cancel_right h5b
      have h7 : pc1.data = pc2.data := escList_inj h6
      cases pc1
      cases pc2
      exact congrArg String.mk h7

/-- C6: every generated card's `status.hash` is the hex SHA-256 of the
marshalled card spec, computed after the public document has been embedded in
that spec; the marshalled bytes depend injectively on the public-document
string, so any change to it changes the digest input — and hence the hash,
short of an explicit SHA-256 collision. -/
theorem C6_hash_covers_public_document :
    (∀ agentRegistry agent services now,
      ∃ card, GenerateCard (some a2aTranslate) agentRegistry agent services now = .ok card
        ∧ card.status.hash = bytesToHex (sha256Bytes (utf8Chars (specJSON card.spec))))
    ∧ (∀ (s : AgentCardSpec) (pc1 pc2 : String), pc1 ≠ pc2 →
        specJSON { s with publicCard := pc1 } ≠ specJSON { s with publicCard := pc2 })
    ∧ (∀ (s : AgentCardSpec) (pc1 pc2 : String), pc1 ≠ pc2 →
        calculateHash { s with publicCard := pc1 } ≠ calculateHash { s with publicCard := pc2 }
          ∨ digestCollision) := by
  refine ⟨?_, ?_, ?_⟩
  · intro agentRegistry agent services now
    exact ⟨_, rfl, rfl⟩
  · intro s pc1 pc2 h
    exact specJSON_publicCard_inj s h
  · intro s pc1 pc2 h
    by_cases hh : calculateHash { s with publicCard := pc1 }
        = calculateHash { s with publicCard := pc2 }
    · exact Or.inr ⟨specJSON { s with publicCard := pc1 }, specJSON { s with publicCard := pc2 },
        specJSON_publicCard_inj s h, hh⟩
    · exact Or.inl hh

/-- C6 witness: two distinct public-document strings give distinct
serializations, and distinct hashes short of a digest collision. -/
theorem C6_witness :
    specJSON { ({ name := "a1" } : AgentCardSpec) with publicCard := "a" }
        ≠ specJSON { ({ name := "a1" } : AgentCardSpec) with publicCard := "b" }
      ∧ (calculateHash { ({ name := "a1" } : AgentCardSpec) with publicCard := "a" }
          ≠ calculateHash { ({ name := "a1" } : AgentCardSpec) with publicCard := "b" }
        ∨ digestCollision) :=
  ⟨C6_hash_covers_public_document.2.1 { name := "a1" } "a" "b" (by decide),
   C6_hash_covers_public_document.2.2 { name := "a1" } "a" "b" (by decide)⟩
